import Mathlib

/-!
Verification of the Feishu channel adapter's inbound authorization pipeline
(`src/extensions/feishu/src/channel.ts`) and of the outbound webhook forwarder
(`forwardWebchatFinal`).

JavaScript strings are modelled as lists of characters (`Str`); `trim`,
`toLowerCase`, prefix stripping and substring search are given executable
definitions mirroring the JavaScript semantics used by the source. External
collaborators (plugin SDK helpers, the pairing store, `node:crypto`, `fetch`)
are modelled as explicit oracle parameters; two SDK functions whose source is
not part of this repository are modelled from the specification and marked as
such in their doc comments.
-/

namespace Feishu

/-- Model of a JavaScript string: a list of characters. -/
abbrev Str := List Char

/-- Convert a Lean string literal into the model. -/
def str (s : String) : Str := s.data

/-- JS whitespace test used by `String.prototype.trim` (ASCII-relevant part). -/
def isJsWs (c : Char) : Bool := c.isWhitespace

/-- `s.trimStart()`: drop leading whitespace. -/
def trimL (s : Str) : Str := s.dropWhile isJsWs

/-- `s.trimEnd()`: drop trailing whitespace. -/
def trimR (s : Str) : Str := s.rdropWhile isJsWs

/-- `s.trim()`: drop leading and trailing whitespace. -/
def trim (s : Str) : Str := trimR (trimL s)

/-- `s.toLowerCase()` on the ASCII range. -/
def toLower (s : Str) : Str := s.map Char.toLower

/-- `a.includes(b)`: substring test. -/
def containsSub (hay needle : Str) : Bool :=
  match hay with
  | [] => needle.isPrefixOf []
  | _ :: t => needle.isPrefixOf hay || containsSub t needle

instance : DecidableEq Str := inferInstanceAs (DecidableEq (List Char))

/-- `normalizeUserId` from channel.ts: trim, and lower-case when non-empty. -/
def normalizeUserId (raw : Str) : Str :=
  let trimmed := trim raw
  if trimmed = [] then [] else toLower trimmed

/-- The effect of `.replace(/^(feishu|lark|user|open_id):/i, "")` on a string
that has already been lower-cased: strip the first matching alternative of the
anchored regex, trying the alternatives left to right. -/
def stripIdTag (s : Str) : Str :=
  if (str "feishu:").isPrefixOf s then s.drop 7
  else if (str "lark:").isPrefixOf s then s.drop 5
  else if (str "user:").isPrefixOf s then s.drop 5
  else if (str "open_id:").isPrefixOf s then s.drop 8
  else s

/-- `isSenderAllowed(senderId, allowFrom)` from channel.ts. -/
def isSenderAllowed (senderId : Str) (allowFrom : List Str) : Bool :=
  if allowFrom.contains (str "*") then true
  else
    let normalizedSenderId := normalizeUserId senderId
    allowFrom.any fun entry =>
      let normalized := toLower (trim entry)
      if normalized = [] then false
      else if normalized = normalizedSenderId then true
      else if stripIdTag normalized = normalizedSenderId then true
      else false

/-- The recognized channel/kind tags of the allow-list entry regex, without the
trailing colon. -/
def recognizedIdPrefixes : List Str := [str "feishu", str "lark", str "user", str "open_id"]

/-- One element of the raw `mentions` array of a Feishu message event. The
source probes each element with `typeof`-checks; `notObj` stands for any
element that is not a non-null object, and in `obj` a `none` field stands for
an absent or non-string (resp. non-object) property. -/
inductive MentionVal
  | notObj
  | obj (name : Option Str) (idOpenId : Option Str) (idUserId : Option Str)
deriving DecidableEq

/-- Result of `extractMentionInfo` from channel.ts. -/
structure MentionInfo where
  hasAnyMention : Bool
  wasMentioned : Bool
  canDetectMention : Bool
deriving DecidableEq

/-- The `targets` set of `extractMentionInfo`: the bot's trimmed identifiers,
with absent and empty entries filtered out (`[...].filter(Boolean)`). -/
def mentionTargets (botOpenId botUserId botName : Option Str) : List Str :=
  (([botOpenId, botUserId, botName].filterMap (fun o => o.map trim)).filter (fun t => t ≠ []))

/-- Whether one structured mention entry matches the bot, as tested inside the
loop of `extractMentionInfo`: its trimmed display name, open id or user id is
in `targets`. -/
def mentionEntryMatches (targets : List Str) (entry : MentionVal) : Bool :=
  match entry with
  | .notObj => false
  | .obj name idOpenId idUserId =>
    let nameS := (name.map trim).getD []
    let openId := (idOpenId.map trim).getD []
    let userId := (idUserId.map trim).getD []
    targets.contains nameS || targets.contains openId || targets.contains userId

/-- The inline-mention marker `user_id=\"<botUserId>\"` searched for in the raw
content as a fallback (the backslash-quote sequence is literal). -/
def inlineMentionMarker (botUserId : Str) : Str :=
  str "user_id=" ++ ['\\', '"'] ++ botUserId ++ ['\\', '"']

/-- `extractMentionInfo` from channel.ts. -/
def extractMentionInfo (mentions : Option (List MentionVal)) (rawContent : Str)
    (botOpenId botUserId botName : Option Str) : MentionInfo :=
  let list := mentions.getD []
  let hasAnyMention := decide (0 < list.length) || containsSub rawContent (str "<at ")
  let targets := mentionTargets botOpenId botUserId botName
  let wasMentionedLoop := list.any (mentionEntryMatches targets)
  let wasMentioned :=
    if wasMentionedLoop = false then
      match botUserId with
      | some b =>
        if b ≠ [] then
          if containsSub rawContent (inlineMentionMarker b) then true else false
        else false
      | none => false
    else wasMentionedLoop
  let canDetectMention := decide (0 < list.length) || containsSub rawContent (str "<at ")
  ⟨hasAnyMention, wasMentioned, canDetectMention⟩

/-- Per-group override entry (`FeishuGroupEntrySchema`). -/
structure GroupEntry where
  enabled : Option Bool := none
  allow : Option Bool := none
  requireMention : Option Bool := none
  users : Option (List Str) := none
  systemPrompt : Option Str := none
deriving DecidableEq

/-- Lookup in a JS record modelled as an association list (keys unique). -/
def lookupRecord (entries : List (Str × GroupEntry)) (key : Str) : Option GroupEntry :=
  (entries.find? (fun e => decide (e.1 = key))).map (·.2)

/-- Result of `resolveGroupConfig` from channel.ts. -/
structure GroupConfigResolved where
  entry : Option GroupEntry
  allowlistConfigured : Bool
  fallback : Option GroupEntry
deriving DecidableEq

/-- `resolveGroupConfig` from channel.ts: resolve a per-group entry by id,
name, lower-cased name, then the wildcard entry; report whether a group map is
configured at all (a present but empty map counts as not configured, because
the source tests `Object.keys(entries).length === 0`). -/
def resolveGroupConfig (groupId : Str) (groupName : Option Str)
    (groups : Option (List (Str × GroupEntry))) : GroupConfigResolved :=
  let entries := groups.getD []
  if entries.length = 0 then ⟨none, false, none⟩
  else
    let normalizedName := groupName.map (fun n => toLower (trim n))
    let candidates := [groupId, groupName.getD [], normalizedName.getD []].filter (fun c => c ≠ [])
    let entryFirst := (candidates.filterMap (fun c => lookupRecord entries c)).head?
    let entry :=
      match entryFirst with
      | some e => some e
      | none =>
        match normalizedName with
        | some nn => if nn ≠ [] then lookupRecord entries nn else none
        | none => none
    let fallback := lookupRecord entries (str "*")
    ⟨(entry.or fallback), true, fallback⟩

/-- `dm` block of a Feishu account config (`FeishuDmConfigSchema`). -/
structure DmConfig where
  enabled : Option Bool := none
  policy : Option Str := none
  allowFrom : Option (List Str) := none
deriving DecidableEq

/-- The merged per-account configuration fields consumed by the pipeline
(`FeishuAccountConfigSchema`). -/
structure FeishuAccountConfig where
  botUserId : Option Str := none
  botOpenId : Option Str := none
  botName : Option Str := none
  allowBots : Option Bool := none
  requireMention : Option Bool := none
  groupPolicy : Option Str := none
  groups : Option (List (Str × GroupEntry)) := none
  dm : Option DmConfig := none
deriving DecidableEq

/-- The global-config fields consumed by the pipeline:
`config.channels?.defaults?.groupPolicy` and `config.commands?.useAccessGroups`. -/
structure GlobalConfig where
  defaultGroupPolicy : Option Str := none
  useAccessGroups : Option Bool := none
deriving DecidableEq

/-- `sender_id` of an inbound event. -/
structure FeishuEventSenderId where
  open_id : Option Str := none
  user_id : Option Str := none
  union_id : Option Str := none
deriving DecidableEq

/-- `sender` of an inbound event. -/
structure FeishuEventSender where
  sender_type : Option Str := none
  sender_id : Option FeishuEventSenderId := none
deriving DecidableEq

/-- The `content` field of an inbound message: a raw string, an object with an
optional string `text` property, or anything else. -/
inductive ContentVal
  | cstr (s : Str)
  | cobj (text : Option Str)
  | cnone
deriving DecidableEq

/-- `message` of an inbound event. -/
structure FeishuEventMessage where
  message_id : Option Str := none
  chat_id : Option Str := none
  chat_type : Option Str := none
  content : ContentVal := .cnone
  mentions : Option (List MentionVal) := none
  root_id : Option Str := none
  parent_id : Option Str := none
deriving DecidableEq

/-- An inbound Feishu message event. -/
structure FeishuMessageEvent where
  message : Option FeishuEventMessage := none
  sender : Option FeishuEventSender := none
  event_time : Option Int := none
deriving DecidableEq

/-- `resolveSenderId` from channel.ts: first non-empty of the trimmed open id,
user id and union id. -/
def resolveSenderId (sender : Option FeishuEventSender) : Str :=
  let sid := (sender.bind (·.sender_id)).getD {}
  let o := (sid.open_id.map trim).getD []
  let u := (sid.user_id.map trim).getD []
  let n := (sid.union_id.map trim).getD []
  if o ≠ [] then o else if u ≠ [] then u else if n ≠ [] then n else []

/-- `extractMessageText` from channel.ts. `jsonParseText` is the external
`JSON.parse` primitive restricted to what the source reads from it: for a
string starting with a brace or bracket, `some t` means parsing succeeded and
`parsed.text` was a string whose trim `t` is non-empty; `none` means any other
outcome (parse error, or no usable `text` field), in which case the source
falls through to the raw trimmed content. -/
def extractMessageText (jsonParseText : Str → Option Str) (content : ContentVal) : Str :=
  match content with
  | .cstr s =>
    let trimmed := trim s
    if trimmed = [] then []
    else if trimmed.head? = some '\x7b' ∨ trimmed.head? = some '[' then
      match jsonParseText trimmed with
      | some text => text
      | none => trimmed
    else trimmed
  | .cobj text =>
    match text with
    | some t => if trim t ≠ [] then trim t else []
    | none => []
  | .cnone => []

/-- Modelled from the spec: `resolveMentionGatingWithBypass` is imported from
the external `openclaw/plugin-sdk` package, whose source is not part of this
repository; this definition follows the decision table of spec section 4.6
(first matching row wins). The source call site always passes `isGroup=true`
and `implicitMention=false`, so those two arguments are omitted. -/
structure MentionGateResult where
  shouldSkip : Bool
  effectiveWasMentioned : Bool
deriving DecidableEq

/-- Modelled from the spec: decision table of section 4.6 for the external
`resolveMentionGatingWithBypass`. Rows in order: `requireMention=false` never
skips and keeps `wasMentioned`; an actual mention continues; an authorized
control command bypasses (`effectiveWasMentioned=true`); an undetectable
payload fails open; otherwise skip. -/
def resolveMentionGatingWithBypass (requireMention canDetectMention wasMentioned
    hasAnyMention allowTextCommands hasControlCommand commandAuthorized : Bool) :
    MentionGateResult :=
  if requireMention = false then ⟨false, wasMentioned⟩
  else if wasMentioned then ⟨false, true⟩
  else if hasControlCommand && commandAuthorized && allowTextCommands then ⟨false, true⟩
  else if canDetectMention = false then ⟨false, false⟩
  else ⟨true, false⟩

/-- One entry of the `authorizers` array passed to the external command
authorization resolver. -/
structure CommandAuthorizer where
  configured : Bool
  allowed : Bool
deriving DecidableEq

/-- Modelled from the spec: `resolveCommandAuthorizedFromAuthorizers` is
imported from the external `openclaw/plugin-sdk` package, whose source is not
part of this repository; per spec section 4.5 the final boolean is true iff
`useAccessGroups` is false OR the sender matched the applicable allow-list. -/
def resolveCommandAuthorizedFromAuthorizers (useAccessGroups : Bool)
    (authorizers : List CommandAuthorizer) : Bool :=
  !useAccessGroups || authorizers.any (·.allowed)

/-- The resolution `account.config.groupPolicy ?? defaultGroupPolicy ??
"allowlist"` at channel.ts line 418. -/
def resolvedGroupPolicy (account : FeishuAccountConfig) (config : GlobalConfig) : Str :=
  account.groupPolicy.getD (config.defaultGroupPolicy.getD (str "allowlist"))

/-- The resolution `account.config.dm?.policy ?? "pairing"` at channel.ts
line 463. -/
def resolvedDmPolicy (account : FeishuAccountConfig) : Str :=
  (account.dm.bind (·.policy)).getD (str "pairing")

/-- The resolution `groupEntry?.requireMention ?? account.config.requireMention
?? true` at channel.ts line 484. -/
def resolvedRequireMention (groupEntry : Option GroupEntry)
    (account : FeishuAccountConfig) : Bool :=
  (groupEntry.bind (·.requireMention)).getD (account.requireMention.getD true)

/-- The command-authorization computation of channel.ts lines 472-481:
`undefined` (`none`) when the external should-compute predicate said no,
otherwise the external resolver applied to the single authorizer built from
the applicable allow-list. -/
def commandAuthorizedFor (shouldComputeAuth useAccessGroups : Bool)
    (senderId : Str) (commandAllowFrom : List Str) : Option Bool :=
  if shouldComputeAuth then
    some (resolveCommandAuthorizedFromAuthorizers useAccessGroups
      [⟨decide (commandAllowFrom ≠ []), isSenderAllowed senderId commandAllowFrom⟩])
  else none

/-- Where the pipeline terminated when it dropped an event; each constructor
corresponds to one `return` in `processMessageWithPipeline`. -/
inductive DropReason
  | noMessage
  | noChatId
  | botMessage
  | emptyBody
  | groupPolicyDisabled
  | groupNoAllowlist
  | groupNotAllowlisted
  | groupChatDisabled
  | groupSenderNotAllowed
  | mentionRequired
  | dmDisabled
  | dmPairingDrop
  | dmBlocked
  | controlCommandUnauthorized
deriving DecidableEq

/-- The routing-context fields relevant to the claims, taken from the
`finalizeInboundContext` payload. -/
structure DispatchInfo where
  senderId : Str
  chatId : Str
  isGroup : Bool
  rawBody : Str
  commandAuthorized : Option Bool
  wasMentioned : Option Bool
  groupSystemPrompt : Option Str
deriving DecidableEq

/-- Either a drop at some gate or a handoff to the reply dispatcher. -/
inductive PipeResult
  | dropped (reason : DropReason)
  | dispatched (info : DispatchInfo)
deriving DecidableEq

/-- Observable outcome of one pipeline run: the decision plus the externally
visible effects on the pairing store and the pairing-reply send primitive. -/
structure PipeOutcome where
  result : PipeResult
  storeReadAttempted : Bool
  upsertCalls : List Str
  pairingReplyAttempted : Bool
  pairingReplyFailed : Bool
deriving DecidableEq

/-- Outcome of a drop that happens before the pairing-store read. -/
def pipeDrop (r : DropReason) : PipeOutcome :=
  ⟨.dropped r, false, [], false, false⟩

/-- External collaborators of the pipeline, as pure oracles fixed for one run:
the plugin-SDK command helpers, the pairing store (a `none` store read models
a rejected promise, caught and replaced by `[]` in the source), and whether
the `sendFeishuText` call for a pairing reply succeeds. -/
structure CoreOracles where
  shouldComputeCommandAuthorized : Str → Bool
  readAllowFromStore : Option (List Str)
  upsertPairingRequest : Str → Str × Bool
  shouldHandleTextCommands : Bool
  hasControlCommand : Str → Bool
  isControlCommandMessage : Str → Bool
  sendPairingReplyOk : Bool
  jsonParseText : Str → Option Str

/-- The group gate of channel.ts lines 428-461 (inside `if (isGroup)`), as the
drop reason it produces, if any. -/
def groupGate (isGroup : Bool) (senderId : Str) (groupPolicy : Str)
    (gc : GroupConfigResolved) (groups : Option (List (Str × GroupEntry)))
    (groupUsers : List Str) : Option DropReason :=
  if isGroup = false then none
  else if groupPolicy = str "disabled" then some .groupPolicyDisabled
  else
    let groupAllowed := gc.entry.isSome || (lookupRecord (groups.getD []) (str "*")).isSome
    if groupPolicy = str "allowlist" ∧ gc.allowlistConfigured = false then
      some .groupNoAllowlist
    else if groupPolicy = str "allowlist" ∧ groupAllowed = false then
      some .groupNotAllowlisted
    else if (gc.entry.bind (·.enabled)) = some false ∨ (gc.entry.bind (·.allow)) = some false then
      some .groupChatDisabled
    else if groupUsers ≠ [] ∧ isSenderAllowed senderId groupUsers = false then
      some .groupSenderNotAllowed
    else none

/-- Result of the DM gate, with its effects on the pairing store. -/
structure DmGateResult where
  reason : Option DropReason
  upsertCalls : List Str
  pairingReplyAttempted : Bool
  pairingReplyFailed : Bool
deriving DecidableEq

/-- The DM gate of channel.ts lines 514-555 (inside `if (!isGroup)`): reject
when the policy is `disabled` or the dm block is explicitly disabled; continue
unconditionally for `open`; otherwise continue only for an allowed sender, and
for `pairing` idempotently upsert a pairing request and, when it was newly
created, try to send the pairing reply, swallowing any send failure. -/
def dmGate (isGroup : Bool) (senderId : Str) (dmPolicy : Str) (dmEnabled : Option Bool)
    (senderAllowedForCommands : Bool) (core : CoreOracles) : DmGateResult :=
  if isGroup then ⟨none, [], false, false⟩
  else if dmPolicy = str "disabled" ∨ dmEnabled = some false then
    ⟨some .dmDisabled, [], false, false⟩
  else if dmPolicy = str "open" then ⟨none, [], false, false⟩
  else if senderAllowedForCommands then ⟨none, [], false, false⟩
  else if dmPolicy = str "pairing" then
    let res := core.upsertPairingRequest senderId
    if res.2 then ⟨some .dmPairingDrop, [senderId], true, !core.sendPairingReplyOk⟩
    else ⟨some .dmPairingDrop, [senderId], false, false⟩
  else ⟨some .dmBlocked, [], false, false⟩

/-- `processMessageWithPipeline` from channel.ts: the ordered gates (bot
filter, empty-body filter, group gate, command authorization, mention gate,
DM gate, control-command gate) followed by the context handoff. The returned
outcome records the decision and the pairing-store effects. -/
def processMessageWithPipeline (event : FeishuMessageEvent)
    (account : FeishuAccountConfig) (config : GlobalConfig)
    (core : CoreOracles) : PipeOutcome :=
  match event.message with
  | none => pipeDrop .noMessage
  | some message =>
    let chatId := trim (message.chat_id.getD [])
    if chatId = [] then pipeDrop .noChatId
    else
      let chatType := trim (toLower (message.chat_type.getD []))
      let isGroup : Bool := decide (chatType ≠ str "p2p")
      let senderId := resolveSenderId event.sender
      let senderType := (event.sender.bind (·.sender_type)).map (fun s => trim (toLower s))
      let allowBots : Bool := decide (account.allowBots = some true)
      if allowBots = false ∧ senderType = some (str "bot") then pipeDrop .botMessage
      else if allowBots = false ∧ senderId ≠ [] ∧ account.botOpenId.map trim = some senderId then
        pipeDrop .botMessage
      else
        let rawContent := match message.content with | .cstr s => s | _ => []
        let rawBody := trim (extractMessageText core.jsonParseText message.content)
        if rawBody = [] then pipeDrop .emptyBody
        else
          let groupPolicy := resolvedGroupPolicy account config
          let groupConfigResolved := resolveGroupConfig chatId none account.groups
          let groupEntry := groupConfigResolved.entry
          let groupUsers := (groupEntry.bind (·.users)).getD []
          match groupGate isGroup senderId groupPolicy groupConfigResolved account.groups
              groupUsers with
          | some r => pipeDrop r
          | none =>
            let dmPolicy := resolvedDmPolicy account
            let configAllowFrom := (account.dm.bind (·.allowFrom)).getD []
            let shouldComputeAuth := core.shouldComputeCommandAuthorized rawBody
            let storeReadAttempted : Bool :=
              decide (isGroup = false ∧ (dmPolicy ≠ str "open" ∨ shouldComputeAuth = true))
            let storeAllowFrom :=
              if storeReadAttempted then core.readAllowFromStore.getD [] else []
            let effectiveAllowFrom := configAllowFrom ++ storeAllowFrom
            let commandAllowFrom := if isGroup then groupUsers else effectiveAllowFrom
            let useAccessGroups : Bool := decide (config.useAccessGroups ≠ some false)
            let senderAllowedForCommands := isSenderAllowed senderId commandAllowFrom
            let commandAuthorized :=
              commandAuthorizedFor shouldComputeAuth useAccessGroups senderId commandAllowFrom
            let mentionInfo := extractMentionInfo message.mentions rawContent
              account.botOpenId account.botUserId account.botName
            let mentionGateRes := resolveMentionGatingWithBypass
              (resolvedRequireMention groupEntry account)
              mentionInfo.canDetectMention mentionInfo.wasMentioned mentionInfo.hasAnyMention
              core.shouldHandleTextCommands (core.hasControlCommand rawBody)
              (decide (commandAuthorized = some true))
            if isGroup ∧ mentionGateRes.shouldSkip then
              { result := .dropped .mentionRequired, storeReadAttempted := storeReadAttempted,
                upsertCalls := [], pairingReplyAttempted := false, pairingReplyFailed := false }
            else
              let dmRes := dmGate isGroup senderId dmPolicy (account.dm.bind (·.enabled))
                senderAllowedForCommands core
              match dmRes.reason with
              | some r =>
                { result := .dropped r, storeReadAttempted := storeReadAttempted,
                  upsertCalls := dmRes.upsertCalls,
                  pairingReplyAttempted := dmRes.pairingReplyAttempted,
                  pairingReplyFailed := dmRes.pairingReplyFailed }
              | none =>
                if isGroup ∧ core.isControlCommandMessage rawBody ∧ commandAuthorized ≠ some true then
                  { result := .dropped .controlCommandUnauthorized,
                    storeReadAttempted := storeReadAttempted, upsertCalls := [],
                    pairingReplyAttempted := false, pairingReplyFailed := false }
                else
                  { result := .dispatched {
                      senderId := senderId, chatId := chatId, isGroup := isGroup,
                      rawBody := rawBody, commandAuthorized := commandAuthorized,
                      wasMentioned :=
                        if isGroup then some mentionGateRes.effectiveWasMentioned else none,
                      groupSystemPrompt :=
                        if isGroup then
                          match (groupEntry.bind (·.systemPrompt)).map trim with
                          | some sp => if sp = [] then none else some sp
                          | none => none
                        else none },
                    storeReadAttempted := storeReadAttempted, upsertCalls := [],
                    pairingReplyAttempted := false, pairingReplyFailed := false }

/-- `gateway.webchat.notify.feishu` block consumed by the webhook forwarder. -/
structure FeishuWebhookConfig where
  enabled : Option Bool := none
  webhook : Option Str := none
  secret : Option Str := none
  keyword : Option Str := none
deriving DecidableEq

/-- `gateway.webchat.notify` block consumed by the webhook forwarder. -/
structure WebchatNotifyConfig where
  enabled : Option Bool := none
  feishu : Option FeishuWebhookConfig := none
deriving DecidableEq

/-- The JSON payload posted by the webhook forwarder. -/
structure WebhookPayload where
  text : Str
  timestamp : Option Str := none
  sign : Option Str := none
deriving DecidableEq

/-- The observed HTTP response: status, and the application-level `code` field
of the JSON body (`none` when absent or when the body failed to parse, which
the source maps to an empty object). -/
structure HttpResponse where
  status : Int
  code : Option Int
deriving DecidableEq

/-- External collaborators of the webhook forwarder: the channel normalizer,
the clock (`Math.floor(Date.now() / 1000)`), the `node:crypto` HMAC-SHA256
primitive composed with base64 encoding
(`createHmac("sha256", key).update(msg).digest("base64")` as `key msg ↦
digest`), and the HTTP response returned by `fetch`. -/
structure ForwardOracles where
  normalizeMessageChannel : Option Str → Str
  nowSeconds : Nat
  hmacSha256Base64 : Str → Str → Str
  response : HttpResponse

/-- Decimal rendering of a natural number, as `Number.prototype.toString`. -/
def natToStr (n : Nat) : Str := (toString n).data

/-- Outcome of `forwardWebchatFinal`: returned without posting, posted and
returned normally, or posted and then threw. -/
inductive ForwardOutcome
  | skipped
  | ok (payload : WebhookPayload)
  | error (payload : WebhookPayload)
deriving DecidableEq

/-- The response check after the `fetch` call in `forwardWebchatFinal`: throw
`Feishu webhook HTTP <status>` on a non-2xx status (`!res.ok`), then throw
`Feishu webhook error` when the parsed body carries a truthy non-zero `code`. -/
def webhookResponseOutcome (response : HttpResponse) (payload : WebhookPayload) :
    ForwardOutcome :=
  if ¬ (200 ≤ response.status ∧ response.status ≤ 299) then .error payload
  else
    match response.code with
    | some c => if c ≠ 0 then .error payload else .ok payload
    | none => .ok payload

/-- `forwardWebchatFinal` from the webhook forwarder module: filter to the
webchat channel, optionally prefix a keyword, optionally sign with
HMAC-SHA256 over `"{unixTimestampSeconds}\n{secret}"` as key material over an
empty message body, post, and throw on a non-2xx status or a non-zero
application-level `code`. -/
def forwardWebchatFinal (notify : Option WebchatNotifyConfig) (text : Str)
    (sessionChannel : Option Str) (ora : ForwardOracles) : ForwardOutcome :=
  match notify with
  | none => .skipped
  | some n =>
    if n.enabled ≠ some true then .skipped
    else if ora.normalizeMessageChannel sessionChannel ≠ str "webchat" then .skipped
    else
      match n.feishu with
      | none => .skipped
      | some f =>
        if f.enabled = some false then .skipped
        else
          let webhook := trim (f.webhook.getD [])
          if webhook = [] then .skipped
          else
            let baseText := trim text
            if baseText = [] then .skipped
            else
              let msgText :=
                match f.keyword with
                | some k => if k ≠ [] then k ++ str " " ++ baseText else baseText
                | none => baseText
              let secret := trim (f.secret.getD [])
              let payload : WebhookPayload :=
                if secret ≠ [] then
                  let timestamp := natToStr ora.nowSeconds
                  let stringToSign := timestamp ++ str "\n" ++ secret
                  let sign := ora.hmacSha256Base64 stringToSign (str "")
                  ⟨msgText, some timestamp, some sign⟩
                else ⟨msgText, none, none⟩
              webhookResponseOutcome ora.response payload

end Feishu

namespace Feishu

/-! Helper lemmas about `trim` fixpoints and tag stripping. -/

theorem trimL_eq_self_of_trim {s : Str} (h : trim s = s) : trimL s = s := by
  have h1 : trimL s <:+ s := List.dropWhile_suffix _
  have h2 : trim s <+: trimL s := List.rdropWhile_prefix _ _
  have l1 : s.length ≤ (trimL s).length := by
    have := h2.length_le
    rwa [h] at this
  exact h1.eq_of_length (le_antisymm h1.length_le l1)

theorem trimR_eq_self_of_trim {s : Str} (h : trim s = s) : trimR s = s := by
  have hL := trimL_eq_self_of_trim h
  unfold trim at h
  rwa [hL] at h

theorem normalizeUserId_of_trim {s : Str} (hs : trim s = s) :
    normalizeUserId s = toLower s := by
  unfold normalizeUserId
  rw [hs]
  rcases eq_or_ne s [] with rfl | hne
  · simp [toLower]
  · simp [hne]

theorem trim_cons_append (c : Char) (hc : isJsWs c = false) (rest s : Str)
    (hrest : trimR (c :: rest) = c :: rest) (hs : trim s = s) :
    trim ((c :: rest) ++ s) = (c :: rest) ++ s := by
  unfold trim
  have hL : trimL ((c :: rest) ++ s) = (c :: rest) ++ s := by
    simp [trimL, List.dropWhile_cons, hc]
  rw [hL]
  rcases eq_or_ne s [] with rfl | hne
  · simpa using hrest
  · rw [trimR, List.rdropWhile_eq_self_iff]
    intro _
    rw [List.getLast_append' _ _ hne]
    exact (List.rdropWhile_eq_self_iff.mp (trimR_eq_self_of_trim hs)) hne

theorem stripIdTag_feishu (t : Str) : stripIdTag (str "feishu:" ++ t) = t := by
  unfold stripIdTag
  rw [if_pos (by simp [str, List.isPrefixOf]), List.drop_left' (by rfl)]

theorem stripIdTag_lark (t : Str) : stripIdTag (str "lark:" ++ t) = t := by
  unfold stripIdTag
  rw [if_neg (by simp [str, List.isPrefixOf]), if_pos (by simp [str, List.isPrefixOf]),
    List.drop_left' (by rfl)]

theorem stripIdTag_user (t : Str) : stripIdTag (str "user:" ++ t) = t := by
  unfold stripIdTag
  rw [if_neg, if_neg, if_pos, List.drop_left' (by rfl)]
  · simp [str, List.isPrefixOf]
  · simp [str, List.isPrefixOf]
  · simp [str, List.isPrefixOf]

theorem stripIdTag_openId (t : Str) : stripIdTag (str "open_id:" ++ t) = t := by
  unfold stripIdTag
  rw [if_neg (by simp [str, List.isPrefixOf]), if_neg (by simp [str, List.isPrefixOf]),
    if_neg (by simp [str, List.isPrefixOf]), if_pos (by simp [str, List.isPrefixOf]),
    List.drop_left' (by rfl)]

theorem isSenderAllowed_fixed_tag (c : Char) (rest s : Str)
    (hc : isJsWs c = false) (hr : trimR (c :: rest) = c :: rest)
    (hlow : toLower (c :: rest) = c :: rest)
    (hstrip : stripIdTag ((c :: rest) ++ toLower s) = toLower s)
    (hs : trim s = s) :
    isSenderAllowed s [(c :: rest) ++ s] = true := by
  unfold isSenderAllowed
  by_cases hcon : ([(c :: rest) ++ s].contains (str "*")) = true
  · rw [if_pos hcon]
  · rw [if_neg hcon]
    simp only [List.any_cons, List.any_nil, Bool.or_false]
    rw [trim_cons_append c hc rest s hr hs]
    have hlower : toLower ((c :: rest) ++ s) = (c :: rest) ++ toLower s := by
      unfold toLower
      rw [List.map_append]
      unfold toLower at hlow
      rw [hlow]
    rw [hlower, normalizeUserId_of_trim hs]
    rw [if_neg (by simp)]
    by_cases heq : ((c :: rest) ++ toLower s) = toLower s
    · rw [if_pos heq]
    · rw [if_neg heq, if_pos hstrip]

/-- C6: wildcard allow-lists allow any sender; the empty allow-list allows
nobody. -/
theorem isSenderAllowed_wildcard_and_empty :
    (∀ (senderId : Str) (allowFrom : List Str),
      allowFrom.contains (str "*") = true →
      isSenderAllowed senderId allowFrom = true) ∧
    (∀ senderId : Str, isSenderAllowed senderId [] = false) := by
  constructor
  · intro senderId allowFrom h
    simp only [isSenderAllowed]
    rw [if_pos h]
  · intro senderId
    simp [isSenderAllowed, str]

/-- Witness for C6 at concrete inputs, including the empty sender id. -/
theorem isSenderAllowed_wildcard_and_empty_witness :
    isSenderAllowed [] [str "*"] = true ∧
    isSenderAllowed (str "ou_abc") [str "x", str "*"] = true ∧
    isSenderAllowed (str "ou_abc") [] = false :=
  ⟨isSenderAllowed_wildcard_and_empty.1 [] [str "*"] (by decide),
   isSenderAllowed_wildcard_and_empty.1 (str "ou_abc") [str "x", str "*"] (by decide),
   isSenderAllowed_wildcard_and_empty.2 (str "ou_abc")⟩

/-- C7 counterexample: for the sender id `" x"` (leading whitespace) and the
recognized prefix `user`, the allow-list entry `"user: x"` does NOT match: the
entry is trimmed before the tag is stripped, so the whitespace after the colon
survives in the entry while it is trimmed away from the bare sender id. -/
theorem isSenderAllowed_prefixed_entry_counterexample :
    isSenderAllowed (str " x") [str "user" ++ str ":" ++ str " x"] = false := by
  decide

/-- C7 amended: for every sender id that carries no leading or trailing
whitespace (`trim s = s`) and every recognized channel/kind prefix, the sender
matches an allow-list consisting of its own id with the prefix prepended:
matching normalizes both sides (trim, lower-case) and additionally strips a
recognized prefix from the entry before exact comparison. -/
theorem isSenderAllowed_prefixed_entry (s p : Str)
    (hp : p ∈ recognizedIdPrefixes) (hs : trim s = s) :
    isSenderAllowed s [p ++ str ":" ++ s] = true := by
  simp only [recognizedIdPrefixes, List.mem_cons, List.not_mem_nil, or_false] at hp
  rcases hp with rfl | rfl | rfl | rfl
  · show isSenderAllowed s [('f' :: str "eishu:") ++ s] = true
    exact isSenderAllowed_fixed_tag 'f' (str "eishu:") s (by decide) (by decide) (by decide)
      (stripIdTag_feishu (toLower s)) hs
  · show isSenderAllowed s [('l' :: str "ark:") ++ s] = true
    exact isSenderAllowed_fixed_tag 'l' (str "ark:") s (by decide) (by decide) (by decide)
      (stripIdTag_lark (toLower s)) hs
  · show isSenderAllowed s [('u' :: str "ser:") ++ s] = true
    exact isSenderAllowed_fixed_tag 'u' (str "ser:") s (by decide) (by decide) (by decide)
      (stripIdTag_user (toLower s)) hs
  · show isSenderAllowed s [('o' :: str "pen_id:") ++ s] = true
    exact isSenderAllowed_fixed_tag 'o' (str "pen_id:") s (by decide) (by decide) (by decide)
      (stripIdTag_openId (toLower s)) hs

/-- Witness for the amended C7 at a concrete sender id and each prefix. -/
theorem isSenderAllowed_prefixed_entry_witness :
    isSenderAllowed (str "ou_7aBc") [str "open_id" ++ str ":" ++ str "ou_7aBc"] = true ∧
    isSenderAllowed (str "u1") [str "user" ++ str ":" ++ str "u1"] = true :=
  ⟨isSenderAllowed_prefixed_entry (str "ou_7aBc") (str "open_id") (by decide) (by decide),
   isSenderAllowed_prefixed_entry (str "u1") (str "user") (by decide) (by decide)⟩

/-- C9: for every input, `extractMentionInfo` returns `hasAnyMention` equal to
`canDetectMention`, and both are true exactly when the structured mention list
is non-empty or the raw content contains the inline marker `"<at "`. -/
theorem extractMentionInfo_hasAny_eq_canDetect
    (mentions : Option (List MentionVal)) (rawContent : Str)
    (botOpenId botUserId botName : Option Str) :
    (extractMentionInfo mentions rawContent botOpenId botUserId botName).hasAnyMention =
      (extractMentionInfo mentions rawContent botOpenId botUserId botName).canDetectMention ∧
    (extractMentionInfo mentions rawContent botOpenId botUserId botName).hasAnyMention =
      (decide (0 < (mentions.getD []).length) || containsSub rawContent (str "<at ")) :=
  ⟨rfl, rfl⟩

/-- C2: in a group with `requireMention=true`, `wasMentioned=false` and no
authorized control-command bypass, the mention gate skips exactly when
`canDetectMention` is true (fail-open for undetectable payloads). -/
theorem mentionGate_skip_iff_canDetect
    (canDetectMention hasAnyMention allowTextCommands hasControlCommand
      commandAuthorized : Bool)
    (hnb : (hasControlCommand && commandAuthorized && allowTextCommands) = false) :
    (resolveMentionGatingWithBypass true canDetectMention false hasAnyMention
      allowTextCommands hasControlCommand commandAuthorized).shouldSkip = canDetectMention := by
  unfold resolveMentionGatingWithBypass
  simp only [Bool.true_eq_false, if_false, hnb]
  cases canDetectMention <;> simp

/-- Witness for C2: with no control command the gate skips on a detectable
payload and continues on an undetectable one. -/
theorem mentionGate_skip_iff_canDetect_witness :
    (resolveMentionGatingWithBypass true true false true true false
      false).shouldSkip = true ∧
    (resolveMentionGatingWithBypass true false false false true false
      false).shouldSkip = false :=
  ⟨mentionGate_skip_iff_canDetect true true true false false (by decide),
   mentionGate_skip_iff_canDetect false false true false false (by decide)⟩

/-- C5: the command-authorization result is `none` ("not applicable") exactly
when the external should-compute predicate is false; otherwise it is
`some b` where `b` is true iff `useAccessGroups` is false OR the sender
matched the applicable allow-list (the group's member list for group
conversations, the configured-plus-store union for direct ones). -/
theorem commandAuthorizedFor_spec (shouldComputeAuth useAccessGroups : Bool)
    (senderId : Str) (isGroup : Bool)
    (groupUsers configAllowFrom storeAllowFrom : List Str) :
    (commandAuthorizedFor shouldComputeAuth useAccessGroups senderId
        (if isGroup then groupUsers else configAllowFrom ++ storeAllowFrom) = none
      ↔ shouldComputeAuth = false) ∧
    (shouldComputeAuth = true →
      commandAuthorizedFor shouldComputeAuth useAccessGroups senderId
        (if isGroup then groupUsers else configAllowFrom ++ storeAllowFrom) =
        some (!useAccessGroups ||
          isSenderAllowed senderId
            (if isGroup then groupUsers else configAllowFrom ++ storeAllowFrom))) := by
  cases shouldComputeAuth <;>
    simp [commandAuthorizedFor, resolveCommandAuthorizedFromAuthorizers]

/-- Witness for C5: with access groups on and the sender in the configured DM
allow-list, authorization computes to `some true`. -/
theorem commandAuthorizedFor_spec_witness :
    commandAuthorizedFor true true (str "u1")
      (if (false : Bool) then [] else [str "user:u1"] ++ []) = some true := by
  rw [(commandAuthorizedFor_spec true true (str "u1") false [] [str "user:u1"] []).2 rfl]
  decide

/-- C10: when the corresponding config fields are unset, `groupPolicy`
defaults to the channel-wide default and then to `"allowlist"`, `dmPolicy`
defaults to `"pairing"`, and `requireMention` defaults to `true`, with a
resolved group entry's `requireMention` taking precedence over the account
default. -/
theorem pipeline_policy_defaults (account : FeishuAccountConfig)
    (config : GlobalConfig) (entry : GroupEntry) (r : Bool) :
    (account.groupPolicy = none → config.defaultGroupPolicy = none →
      resolvedGroupPolicy account config = str "allowlist") ∧
    (account.groupPolicy = none → ∀ d, config.defaultGroupPolicy = some d →
      resolvedGroupPolicy account config = d) ∧
    (account.dm.bind (·.policy) = none → resolvedDmPolicy account = str "pairing") ∧
    (entry.requireMention = none → account.requireMention = none →
      resolvedRequireMention (some entry) account = true) ∧
    (entry.requireMention = some r →
      resolvedRequireMention (some entry) account = r) := by
  refine ⟨?_, ?_, ?_, ?_, ?_⟩
  · intro h1 h2; simp [resolvedGroupPolicy, h1, h2]
  · intro h1 d h2; simp [resolvedGroupPolicy, h1, h2]
  · intro h; simp [resolvedDmPolicy, h]
  · intro h1 h2; simp [resolvedRequireMention, h1, h2]
  · intro h; simp [resolvedRequireMention, h]

/-- Witness for C10: all three defaults at an empty account config, and the
group-entry precedence at a concrete entry. -/
theorem pipeline_policy_defaults_witness :
    resolvedGroupPolicy {} {} = str "allowlist" ∧
    resolvedDmPolicy {} = str "pairing" ∧
    resolvedRequireMention (some {}) {} = true ∧
    resolvedRequireMention (some { requireMention := some false }) { requireMention := some true } = false :=
  ⟨(pipeline_policy_defaults {} {} {} false).1 rfl rfl,
   (pipeline_policy_defaults {} {} {} false).2.2.1 rfl,
   (pipeline_policy_defaults {} {} {} false).2.2.2.1 rfl rfl,
   (pipeline_policy_defaults { requireMention := some true } {}
     { requireMention := some false } false).2.2.2.2 rfl⟩

/-- C1: a group-conversation event under `groupPolicy=allowlist` is dropped at
the "no allowlist" return whenever the account has no group map configured at
all (absent, or present but empty, which the source treats identically);
with no group map there is no wildcard entry that could rescue it. -/
theorem pipeline_allowlist_requires_group_map
    (event : FeishuMessageEvent) (m : FeishuEventMessage)
    (account : FeishuAccountConfig) (config : GlobalConfig) (core : CoreOracles)
    (hmsg : event.message = some m)
    (hchat : trim (m.chat_id.getD []) ≠ [])
    (hgrp : trim (toLower (m.chat_type.getD [])) ≠ str "p2p")
    (hbot1 : ¬ (decide (account.allowBots = some true) = false ∧
      ((event.sender.bind (·.sender_type)).map (fun s => trim (toLower s))) = some (str "bot")))
    (hbot2 : ¬ (decide (account.allowBots = some true) = false ∧
      resolveSenderId event.sender ≠ [] ∧
      account.botOpenId.map trim = some (resolveSenderId event.sender)))
    (hbody : trim (extractMessageText core.jsonParseText m.content) ≠ [])
    (hpol : resolvedGroupPolicy account config = str "allowlist")
    (hnog : account.groups = none ∨ account.groups = some []) :
    processMessageWithPipeline event account config core = pipeDrop .groupNoAllowlist := by
  simp only [processMessageWithPipeline, hmsg]
  rw [if_neg hchat, if_neg hbot1, if_neg hbot2, if_neg hbody]
  have hrc : resolveGroupConfig (trim (m.chat_id.getD [])) none account.groups =
      ⟨none, false, none⟩ := by
    rcases hnog with h | h <;> simp [resolveGroupConfig, h]
  rw [hrc, hpol]
  simp [groupGate, hgrp, (by decide : str "allowlist" ≠ str "disabled")]

/-- Witness for C1: a concrete group message at an account with no `groups`
map and an explicit `allowlist` policy is dropped at the group gate. -/
theorem pipeline_allowlist_requires_group_map_witness :
    processMessageWithPipeline
      { message := some { chat_id := some (str "oc_1"),
                          chat_type := some (str "group"),
                          content := .cstr (str "hello") },
        sender := some { sender_type := some (str "user"),
                         sender_id := some { open_id := some (str "ou_1") } } }
      { groupPolicy := some (str "allowlist") } {}
      { shouldComputeCommandAuthorized := fun _ => false,
        readAllowFromStore := some [],
        upsertPairingRequest := fun _ => (str "0000", true),
        shouldHandleTextCommands := false,
        hasControlCommand := fun _ => false,
        isControlCommandMessage := fun _ => false,
        sendPairingReplyOk := true,
        jsonParseText := fun _ => none } = pipeDrop .groupNoAllowlist :=
  pipeline_allowlist_requires_group_map _ _ _ _ _ rfl (by decide) (by decide)
    (by decide) (by decide) (by decide) (by decide) (Or.inl rfl)

/-- C3 counterexample: a direct message under `dmPolicy=open` does NOT proceed
unconditionally: when the account sets `dm.enabled = false` the event is
dropped at the DM gate even though the resolved policy is `open`. -/
theorem pipeline_dm_open_counterexample :
    (processMessageWithPipeline
      { message := some { chat_id := some (str "oc_dm"),
                          chat_type := some (str "p2p"),
                          content := .cstr (str "status") },
        sender := some { sender_type := some (str "user"),
                         sender_id := some { open_id := some (str "ou_u1") } } }
      { dm := some { enabled := some false, policy := some (str "open") } } {}
      { shouldComputeCommandAuthorized := fun _ => false,
        readAllowFromStore := some [],
        upsertPairingRequest := fun _ => (str "0000", true),
        shouldHandleTextCommands := false,
        hasControlCommand := fun _ => false,
        isControlCommandMessage := fun _ => false,
        sendPairingReplyOk := true,
        jsonParseText := fun _ => none }).result = .dropped .dmDisabled ∧
    resolvedDmPolicy
      { dm := some { enabled := some false, policy := some (str "open") } } = str "open" := by
  constructor <;> decide

/-- C3 amended: for every direct event with resolved `dmPolicy=open` whose
`dm` block is not explicitly disabled (`dm.enabled` is not `false`), the DM
gate continues unconditionally: the event is dispatched regardless of any
allow-list, and no pairing request is ever created. -/
theorem pipeline_dm_open_continues
    (event : FeishuMessageEvent) (m : FeishuEventMessage)
    (account : FeishuAccountConfig) (config : GlobalConfig) (core : CoreOracles)
    (hmsg : event.message = some m)
    (hchat : trim (m.chat_id.getD []) ≠ [])
    (hdm : trim (toLower (m.chat_type.getD [])) = str "p2p")
    (hbot1 : ¬ (decide (account.allowBots = some true) = false ∧
      ((event.sender.bind (·.sender_type)).map (fun s => trim (toLower s))) = some (str "bot")))
    (hbot2 : ¬ (decide (account.allowBots = some true) = false ∧
      resolveSenderId event.sender ≠ [] ∧
      account.botOpenId.map trim = some (resolveSenderId event.sender)))
    (hbody : trim (extractMessageText core.jsonParseText m.content) ≠ [])
    (hpol : resolvedDmPolicy account = str "open")
    (hen : account.dm.bind (·.enabled) ≠ some false) :
    ∃ info, (processMessageWithPipeline event account config core).result =
        .dispatched info ∧
      (processMessageWithPipeline event account config core).upsertCalls = [] ∧
      (processMessageWithPipeline event account config core).pairingReplyAttempted = false := by
  simp only [processMessageWithPipeline, hmsg]
  rw [if_neg hchat, if_neg hbot1, if_neg hbot2, if_neg hbody]
  rw [hdm, hpol]
  simp [groupGate, dmGate, hen, (by decide : ¬ str "open" = str "disabled")]

/-- Witness for the amended C3: a concrete direct message from a sender in no
allow-list, body `"status"`, under `dmPolicy=open`, is dispatched. -/
theorem pipeline_dm_open_continues_witness :
    ∃ info, (processMessageWithPipeline
      { message := some { chat_id := some (str "oc_dm"),
                          chat_type := some (str "p2p"),
                          content := .cstr (str "status") },
        sender := some { sender_type := some (str "user"),
                         sender_id := some { open_id := some (str "ou_u1") } } }
      { dm := some { policy := some (str "open") } } {}
      { shouldComputeCommandAuthorized := fun _ => false,
        readAllowFromStore := some [],
        upsertPairingRequest := fun _ => (str "0000", true),
        shouldHandleTextCommands := false,
        hasControlCommand := fun _ => false,
        isControlCommandMessage := fun _ => false,
        sendPairingReplyOk := true,
        jsonParseText := fun _ => none }).result = .dispatched info :=
  match pipeline_dm_open_continues _ _ _ _ _ rfl (by decide) (by decide) (by decide)
    (by decide) (by decide) (by decide) (by decide) with
  | ⟨info, h, _, _⟩ => ⟨info, h⟩

/-- C4 counterexample: with `dm = { enabled: false, policy: "pairing" }` the
resolved `dmPolicy` is still `pairing` and the sender passes no allow-list,
yet the event is dropped at the disabled check with ZERO pairing-request
calls, falsifying "exactly one idempotent create-or-fetch pairing-request
call is made". -/
theorem pipeline_dm_pairing_counterexample :
    (processMessageWithPipeline
      { message := some { chat_id := some (str "oc_dm"),
                          chat_type := some (str "p2p"),
                          content := .cstr (str "hello") },
        sender := some { sender_type := some (str "user"),
                         sender_id := some { open_id := some (str "ou_u1") } } }
      { dm := some { enabled := some false, policy := some (str "pairing") } } {}
      { shouldComputeCommandAuthorized := fun _ => false,
        readAllowFromStore := some [],
        upsertPairingRequest := fun _ => (str "1234", true),
        shouldHandleTextCommands := false,
        hasControlCommand := fun _ => false,
        isControlCommandMessage := fun _ => false,
        sendPairingReplyOk := true,
        jsonParseText := fun _ => none }).upsertCalls = [] ∧
    (processMessageWithPipeline
      { message := some { chat_id := some (str "oc_dm"),
                          chat_type := some (str "p2p"),
                          content := .cstr (str "hello") },
        sender := some { sender_type := some (str "user"),
                         sender_id := some { open_id := some (str "ou_u1") } } }
      { dm := some { enabled := some false, policy := some (str "pairing") } } {}
      { shouldComputeCommandAuthorized := fun _ => false,
        readAllowFromStore := some [],
        upsertPairingRequest := fun _ => (str "1234", true),
        shouldHandleTextCommands := false,
        hasControlCommand := fun _ => false,
        isControlCommandMessage := fun _ => false,
        sendPairingReplyOk := true,
        jsonParseText := fun _ => none }).result = .dropped .dmDisabled ∧
    resolvedDmPolicy
      { dm := some { enabled := some false, policy := some (str "pairing") } } =
      str "pairing" ∧
    isSenderAllowed (str "ou_u1") ([] ++ []) = false := by
  refine ⟨?_, ?_, ?_, ?_⟩ <;> decide

/-- C4 amended: a direct message under `dmPolicy=pairing` whose `dm` block is
not explicitly disabled (`dm.enabled` is not `false`), from a sender failing
the merged (configured plus store) allow-list, makes exactly one
create-or-fetch pairing-request call for the sender, attempts the pairing
reply only when the request was newly created, records (rather than
propagates) a reply-send failure, and drops the event in every case — the
conclusion holds for every oracle, in particular whether or not the reply
send succeeds. -/
theorem pipeline_dm_pairing_unknown_sender
    (event : FeishuMessageEvent) (m : FeishuEventMessage)
    (account : FeishuAccountConfig) (config : GlobalConfig) (core : CoreOracles)
    (hmsg : event.message = some m)
    (hchat : trim (m.chat_id.getD []) ≠ [])
    (hdm : trim (toLower (m.chat_type.getD [])) = str "p2p")
    (hbot1 : ¬ (decide (account.allowBots = some true) = false ∧
      ((event.sender.bind (·.sender_type)).map (fun s => trim (toLower s))) = some (str "bot")))
    (hbot2 : ¬ (decide (account.allowBots = some true) = false ∧
      resolveSenderId event.sender ≠ [] ∧
      account.botOpenId.map trim = some (resolveSenderId event.sender)))
    (hbody : trim (extractMessageText core.jsonParseText m.content) ≠ [])
    (hpol : resolvedDmPolicy account = str "pairing")
    (hen : account.dm.bind (·.enabled) ≠ some false)
    (hnal : isSenderAllowed (resolveSenderId event.sender)
      ((account.dm.bind (·.allowFrom)).getD [] ++ core.readAllowFromStore.getD []) = false) :
    (processMessageWithPipeline event account config core).result =
        .dropped .dmPairingDrop ∧
    (processMessageWithPipeline event account config core).upsertCalls =
        [resolveSenderId event.sender] ∧
    (processMessageWithPipeline event account config core).pairingReplyAttempted =
        (core.upsertPairingRequest (resolveSenderId event.sender)).2 ∧
    (processMessageWithPipeline event account config core).pairingReplyFailed =
        ((core.upsertPairingRequest (resolveSenderId event.sender)).2 &&
          !core.sendPairingReplyOk) := by
  simp only [processMessageWithPipeline, hmsg]
  rw [if_neg hchat, if_neg hbot1, if_neg hbot2, if_neg hbody]
  rw [hdm, hpol]
  simp only [groupGate]
  rw [if_pos (by simp)]
  simp only [dmGate, hnal,
    (by decide : (str "pairing" : Str) ≠ str "open"),
    (by decide : (str "pairing" : Str) ≠ str "disabled")]
  rcases hup : (core.upsertPairingRequest (resolveSenderId event.sender)).2 with _ | _ <;>
    simp [hup, hen, hnal, (by decide : (str "pairing" : Str) ≠ str "open"),
      (by decide : (str "pairing" : Str) ≠ str "disabled"),
      (by decide : (str "p2p" : Str) = str "p2p")]

/-- Witness for C4: first contact from unknown sender `ou_u1` under pairing
policy with a store that reports `created=true`: one upsert call, a reply
attempt, event dropped. -/
theorem pipeline_dm_pairing_unknown_sender_witness :
    (processMessageWithPipeline
      { message := some { chat_id := some (str "oc_dm"),
                          chat_type := some (str "p2p"),
                          content := .cstr (str "hello") },
        sender := some { sender_type := some (str "user"),
                         sender_id := some { open_id := some (str "ou_u1") } } }
      {} {}
      { shouldComputeCommandAuthorized := fun _ => false,
        readAllowFromStore := some [],
        upsertPairingRequest := fun _ => (str "1234", true),
        shouldHandleTextCommands := false,
        hasControlCommand := fun _ => false,
        isControlCommandMessage := fun _ => false,
        sendPairingReplyOk := true,
        jsonParseText := fun _ => none }).result = .dropped .dmPairingDrop ∧
    (processMessageWithPipeline
      { message := some { chat_id := some (str "oc_dm"),
                          chat_type := some (str "p2p"),
                          content := .cstr (str "hello") },
        sender := some { sender_type := some (str "user"),
                         sender_id := some { open_id := some (str "ou_u1") } } }
      {} {}
      { shouldComputeCommandAuthorized := fun _ => false,
        readAllowFromStore := some [],
        upsertPairingRequest := fun _ => (str "1234", true),
        shouldHandleTextCommands := false,
        hasControlCommand := fun _ => false,
        isControlCommandMessage := fun _ => false,
        sendPairingReplyOk := true,
        jsonParseText := fun _ => none }).upsertCalls = [str "ou_u1"] :=
  match pipeline_dm_pairing_unknown_sender _ _ _ _ _ rfl (by decide) (by decide)
    (by decide) (by decide) (by decide) (by decide) (by decide) (by decide) with
  | ⟨h1, h2, _, _⟩ => ⟨h1, h2⟩

theorem webhookResponseOutcome_cases (r : HttpResponse) (p : WebhookPayload) :
    (webhookResponseOutcome r p = .error p ∧
      (¬ (200 ≤ r.status ∧ r.status ≤ 299) ∨ ∃ c, r.code = some c ∧ c ≠ 0)) ∨
    (webhookResponseOutcome r p = .ok p ∧
      ¬ (¬ (200 ≤ r.status ∧ r.status ≤ 299) ∨ ∃ c, r.code = some c ∧ c ≠ 0)) := by
  unfold webhookResponseOutcome
  by_cases hok : 200 ≤ r.status ∧ r.status ≤ 299
  · rw [if_neg (not_not_intro hok)]
    rcases hcode : r.code with _ | c
    · exact Or.inr ⟨rfl, by simp [hok.1, hok.2, hcode]⟩
    · by_cases hc0 : c = 0
      · subst hc0
        exact Or.inr ⟨by simp, by simp [hok.1, hok.2, hcode]⟩
      · exact Or.inl ⟨by simp [hc0], Or.inr ⟨c, rfl, hc0⟩⟩
  · rw [if_pos hok]
    exact Or.inl ⟨rfl, Or.inl hok⟩

/-- C8: when a secret is configured (and the forwarder does not skip), the
posted payload's `sign` is the base64 HMAC-SHA256 digest keyed by
`"{unixTimestampSeconds}\n{secret}"` over the empty message, and the call
throws exactly when the HTTP status is non-2xx or the response body carries a
non-zero application-level code. -/
theorem forwardWebchatFinal_sign_and_failure
    (n : WebchatNotifyConfig) (f : FeishuWebhookConfig) (text : Str)
    (sessionChannel : Option Str) (ora : ForwardOracles)
    (hen : n.enabled = some true)
    (hfe : n.feishu = some f)
    (hfen : f.enabled ≠ some false)
    (hch : ora.normalizeMessageChannel sessionChannel = str "webchat")
    (hwh : trim (f.webhook.getD []) ≠ [])
    (htx : trim text ≠ [])
    (hsec : trim (f.secret.getD []) ≠ []) :
    (∃ payload,
      (forwardWebchatFinal (some n) text sessionChannel ora = .ok payload ∨
        forwardWebchatFinal (some n) text sessionChannel ora = .error payload) ∧
      payload.sign = some (ora.hmacSha256Base64
        (natToStr ora.nowSeconds ++ str "\n" ++ trim (f.secret.getD [])) (str "")) ∧
      payload.timestamp = some (natToStr ora.nowSeconds)) ∧
    ((∃ payload, forwardWebchatFinal (some n) text sessionChannel ora = .error payload) ↔
      (¬ (200 ≤ ora.response.status ∧ ora.response.status ≤ 299) ∨
        ∃ c, ora.response.code = some c ∧ c ≠ 0)) := by
  have hcases := webhookResponseOutcome_cases ora.response
    ⟨(match f.keyword with
      | some k => if k ≠ [] then k ++ str " " ++ trim text else trim text
      | none => trim text),
     some (natToStr ora.nowSeconds),
     some (ora.hmacSha256Base64
       (natToStr ora.nowSeconds ++ str "\n" ++ trim (f.secret.getD [])) (str ""))⟩
  simp only [forwardWebchatFinal, hfe]
  rw [if_neg (by simp [hen]), if_neg (by simp [hch]), if_neg hfen, if_neg hwh, if_neg htx,
    if_pos hsec]
  rcases hcases with ⟨he, hcond⟩ | ⟨he, hcond⟩
  · exact ⟨⟨_, Or.inr he, rfl, rfl⟩, ⟨fun _ => hcond, fun _ => ⟨_, he⟩⟩⟩
  · refine ⟨⟨_, Or.inl he, rfl, rfl⟩, ⟨?_, fun hh => absurd hh hcond⟩⟩
    rintro ⟨q, hq⟩
    rw [he] at hq
    exact absurd hq (by simp)

set_option maxHeartbeats 1000000 in
/-- Witness for C8: concrete secret, timestamp and failing response
(HTTP 500): the forwarder throws and the sign field is the digest of
`"17\nsek"` over the empty message. -/
theorem forwardWebchatFinal_sign_and_failure_witness :
    (∃ payload,
      (forwardWebchatFinal
        (some { enabled := some true,
                feishu := some { webhook := some (str "h"),
                                 secret := some (str "sek") } })
        (str "hello") (some (str "webchat"))
        { normalizeMessageChannel := fun c => c.getD [],
          nowSeconds := 17,
          hmacSha256Base64 := fun key msg => key ++ str "|" ++ msg,
          response := { status := 500, code := none } } = .ok payload ∨
       forwardWebchatFinal
        (some { enabled := some true,
                feishu := some { webhook := some (str "h"),
                                 secret := some (str "sek") } })
        (str "hello") (some (str "webchat"))
        { normalizeMessageChannel := fun c => c.getD [],
          nowSeconds := 17,
          hmacSha256Base64 := fun key msg => key ++ str "|" ++ msg,
          response := { status := 500, code := none } } = .error payload) ∧
      payload.sign = some ((fun (key msg : Str) => key ++ str "|" ++ msg)
        (natToStr 17 ++ str "\n" ++ trim ((some (str "sek")).getD []))
        (str "")) ∧
      payload.timestamp = some (natToStr 17)) ∧
    ((∃ payload, forwardWebchatFinal
        (some { enabled := some true,
                feishu := some { webhook := some (str "h"),
                                 secret := some (str "sek") } })
        (str "hello") (some (str "webchat"))
        { normalizeMessageChannel := fun c => c.getD [],
          nowSeconds := 17,
          hmacSha256Base64 := fun key msg => key ++ str "|" ++ msg,
          response := { status := 500, code := none } } = .error payload) ↔
      (¬ ((200 : Int) ≤ 500 ∧ (500 : Int) ≤ 299) ∨
        ∃ c, (none : Option Int) = some c ∧ c ≠ 0)) :=
  forwardWebchatFinal_sign_and_failure
    { enabled := some true,
      feishu := some { webhook := some (str "h"), secret := some (str "sek") } }
    { webhook := some (str "h"), secret := some (str "sek") }
    (str "hello") (some (str "webchat"))
    { normalizeMessageChannel := fun c => c.getD [],
      nowSeconds := 17,
      hmacSha256Base64 := fun key msg => key ++ str "|" ++ msg,
      response := { status := 500, code := none } }
    rfl rfl (by decide) (by decide) (by decide) (by decide) (by decide)

end Feishu
